import Mathlib

/-!
Verification of the native-extension bridge core of jSH (src/src/jSH.h):
the error-signaling macros, the type/positivity guard macros, the
capability-exposure macros (NFUNCDEF, NPROTDEF, CTORDEF), the native
module registry (library_t and its registration/teardown contract), and
the script execution driver interface (jsh_do_file).

The C macros perform early returns out of the enclosing native routine;
they are embedded in continuation-passing style: a guard either invokes
the continuation (the rest of the routine body) or stores the error and
drops the continuation, which models the `return;` inside the macro.
Script numbers are modelled as rationals; the C cast `(int32_t)num`
is modelled as truncation toward zero followed by wrapping into
the interval from -2^31 to 2^31 - 1.
-/

set_option autoImplicit false

namespace JSH

/-! ## Error-Signaling Protocol (src/src/jSH.h lines 63-68, 72-87) -/

/-- The error kinds of the Error-Signaling Protocol.  Each corresponds to
one raising macro in src/src/jSH.h: JS_ENOMEM, JS_ENOARR, JS_EIDX,
JS_CHECKTYPE's failure branch, JS_CHECKPOS's failure branch, JS_ELINUX. -/
inductive ErrKind where
  | outOfMemory
  | arrayExpected
  | indexOutOfBounds (idx : Int)
  | typeMismatch (expectedType : String)
  | nonNegativeExpected (value : Int)
  | unsupportedOnPlatform
  deriving DecidableEq, Repr

/-- The canonical message template of each error kind, exactly the format
strings of the macros in src/src/jSH.h: "Out of memory" (line 66),
"Array expected" (line 67), "Index out of bound (%ld)" (line 68),
"%s expected" (line 75), "Non negative number expected: %ld" (line 84),
"Not supported on Linux" (line 64). -/
def errMsg : ErrKind → String
  | .outOfMemory => "Out of memory"
  | .arrayExpected => "Array expected"
  | .indexOutOfBounds idx => "Index out of bound (" ++ toString idx ++ ")"
  | .typeMismatch expectedType => expectedType ++ " expected"
  | .nonNegativeExpected value => "Non negative number expected: " ++ toString value
  | .unsupportedOnPlatform => "Not supported on Linux"

/-- State of one native routine invocation: the engine's pending error
slot (set by js_error) and a sentinel the routine body may set, used to
observe whether code after a guard ran. -/
structure RoutineState where
  err : Option String
  sentinel : Bool
  deriving DecidableEq, Repr

/-- Embedding of js_error as used by the macros of src/src/jSH.h: stores
the canonical message for the kind in the engine's error slot. -/
def js_error (k : ErrKind) (s : RoutineState) : RoutineState :=
  { s with err := some (errMsg k) }

/-! ## Numeric model and the (int32_t) cast (src/src/jSH.h line 84) -/

/-- C truncation toward zero of a rational, as in a C cast of a numeric
value to an integer type: the quotient of numerator by denominator
rounded toward zero (Int.tdiv is T-division). -/
def ratTrunc (q : Rat) : Int :=
  Int.tdiv q.num (q.den : Int)

/-- The C cast `(int32_t)num` of src/src/jSH.h line 84: truncation toward
zero, then (the conventional implementation behaviour) wrapping into the
interval from -2^31 to 2^31 - 1. -/
def toInt32 (q : Rat) : Int :=
  (ratTrunc q + 2 ^ 31) % 2 ^ 32 - 2 ^ 31

/-! ## Guard macros (src/src/jSH.h lines 72-87) -/

/-- A script value of the engine, as far as the guards inspect it:
userdata carrying a type tag and a native handle, a number, or anything
else. -/
inductive JSValue where
  | userdata (tag : String) (handle : Nat)
  | number (value : Rat)
  | undefinedVal
  deriving DecidableEq, Repr

/-- Embedding of the engine predicate js_isuserdata(j, idx, type): true
exactly when the value is userdata whose tag equals the requested type. -/
def js_isuserdata (v : JSValue) (ty : String) : Bool :=
  match v with
  | .userdata tag _ => tag == ty
  | _ => false

/-- Embedding of js_touserdata: the native handle carried by a userdata
value (meaningful only after js_isuserdata succeeded). -/
def js_touserdata (v : JSValue) : Nat :=
  match v with
  | .userdata _ h => h
  | _ => 0

/-- Embedding of JS_CHECKTYPE (src/src/jSH.h lines 72-78):
if the value is not userdata of the expected type, raise the
"%s expected" error and return from the routine (the continuation k, the
code after the guard, is dropped); otherwise execution continues and the
routine reads the underlying handle via js_touserdata. -/
def JS_CHECKTYPE (v : JSValue) (ty : String) (s : RoutineState)
    (k : Nat → RoutineState → RoutineState) : RoutineState :=
  if js_isuserdata v ty then k (js_touserdata v) s
  else js_error (.typeMismatch ty) s

/-- Embedding of JS_CHECKPOS (src/src/jSH.h lines 81-87): if num < 0
(the uncast argument decides), raise "Non negative number expected: %ld"
with the argument cast to int32_t, and return from the routine (the
continuation k is dropped); otherwise execution continues with num
unchanged. -/
def JS_CHECKPOS (num : Rat) (s : RoutineState)
    (k : Rat → RoutineState → RoutineState) : RoutineState :=
  if num < 0 then js_error (.nonNegativeExpected (toInt32 num)) s
  else k num s

/-! ## Capability-Exposure macros (src/src/jSH.h lines 93-111) -/

/-- mujs property attribute bit JS_READONLY. -/
def JS_READONLY : Nat := 1

/-- mujs property attribute bit JS_DONTENUM. -/
def JS_DONTENUM : Nat := 2

/-- mujs property attribute bit JS_DONTCONF. -/
def JS_DONTCONF : Nat := 4

/-- Whether an attribute word has the JS_READONLY bit. -/
def isReadonly (atts : Nat) : Bool := atts.testBit 0

/-- Whether an attribute word has the JS_DONTENUM bit. -/
def isDontEnum (atts : Nat) : Bool := atts.testBit 1

/-- Whether an attribute word has the JS_DONTCONF bit. -/
def isDontConf (atts : Nat) : Bool := atts.testBit 2

/-- Modelled from the spec: the engine collaborator's semantics of the
attribute bits (the engine itself is outside src/) — normal assignment
cannot overwrite a read-only property. -/
def canOverwrite (atts : Nat) : Bool := !(isReadonly atts)

/-- Modelled from the spec: the engine collaborator's semantics of the
attribute bits — delete cannot remove a non-configurable property. -/
def canDelete (atts : Nat) : Bool := !(isDontConf atts)

/-- Modelled from the spec: the engine collaborator's semantics of the
attribute bits — enumeration skips a non-enumerable property. -/
def isEnumerated (atts : Nat) : Bool := !(isDontEnum atts)

/-- A property installed on a type's prototype object by NPROTDEF:
the property name, the engine-visible function name, the declared arity,
and the attribute word passed to js_defproperty. -/
structure PropertyBinding where
  name : String
  fnName : String
  arity : Nat
  atts : Nat
  deriving DecidableEq, Repr

/-- A binding installed in the global namespace: name, engine-visible
function name, the routine serving as plain call function, the routine
serving as construct function (for constructors), the finalizer
associated at binding time (if any), declared arity, and the attribute
word of the global property. -/
structure GlobalBinding where
  name : String
  fnName : String
  callFn : String
  constructFn : Option String
  finalizer : Option String
  arity : Nat
  atts : Nat
  deriving DecidableEq, Repr

/-- Embedding of NPROTDEF(j, t, n, p) (src/src/jSH.h lines 107-111):
js_newcfunction(j, t##_##n, #t ".prototype." #n, p) followed by
js_defproperty(j, -2, #n, JS_READONLY | JS_DONTENUM | JS_DONTCONF) on
the prototype object of t sitting at stack index -2. -/
def NPROTDEF (t n : String) (p : Nat) : PropertyBinding :=
  { name := n
    fnName := t ++ ".prototype." ++ n
    arity := p
    atts := JS_READONLY ||| JS_DONTENUM ||| JS_DONTCONF }

/-- Embedding of NFUNCDEF(j, n, p) (src/src/jSH.h lines 100-104):
js_newcfunction(j, f_##n, #n, p) followed by js_setglobal(j, #n) — a
plain global set, which creates the property with no attribute bits
(attribute word 0), the engine's default for ordinary assignment. -/
def NFUNCDEF (n : String) (p : Nat) : GlobalBinding :=
  { name := n
    fnName := n
    callFn := "f_" ++ n
    constructFn := none
    finalizer := none
    arity := p
    atts := 0 }

/-- Embedding of CTORDEF(j, f, t, p) (src/src/jSH.h lines 93-97):
js_newcconstructor(J, f, f, t, p) — the routine f is passed both as the
plain call function and as the construct function; no finalizer is part
of the call — followed by js_defglobal(J, t, JS_DONTENUM). -/
def CTORDEF (f t : String) (p : Nat) : GlobalBinding :=
  { name := t
    fnName := t
    callFn := f
    constructFn := some f
    finalizer := none
    arity := p
    atts := JS_DONTENUM }

/-! ## Native Module Registry (src/src/jSH.h lines 182-188, 204-205) -/

/-- Embedding of library_t (src/src/jSH.h lines 182-188): one loaded
native extension module — its unique name, its opaque handle, and its
optional shutdown hook.  The `next` pointer of the C struct is
represented by keeping the records in a list. -/
structure library_t where
  name : String
  handle : Nat
  shutdown : Option String
  deriving DecidableEq, Repr

/-- Modelled from the spec: the body of jsh_register_library is not under
src/ (src/src/jSH.h line 204 only declares it).  Per the spec, register
fails returning false, leaving the registry unchanged, when the name is
already present; otherwise it appends a new LibraryRecord and returns
true. -/
def jsh_register_library (regs : List library_t) (name : String)
    (handle : Nat) (shutdown : Option String) : Bool × List library_t :=
  if regs.any (fun r => r.name == name) then (false, regs)
  else (true, regs ++ [⟨name, handle, shutdown⟩])

/-- Modelled from the spec: the body of jsh_check_library is not under
src/ (src/src/jSH.h line 205 only declares it).  Pure lookup: whether a
record with this name is registered. -/
def jsh_check_library (regs : List library_t) (name : String) : Bool :=
  regs.any (fun r => r.name == name)

/-- The process-wide registry state: the list of loaded libraries
(jsh_loaded_libraries, src/src/jSH.h line 196) plus the teardown guard
flag the spec requires so that repeated teardown is a no-op. -/
structure RegistryState where
  libs : List library_t
  tornDown : Bool
  deriving DecidableEq, Repr

/-- The empty registry at process start. -/
def initialRegistry : RegistryState := { libs := [], tornDown := false }

/-- One registration step on the registry state (name, handle, optional
shutdown hook), keeping whatever jsh_register_library left in the
registry. -/
def registerLib (s : RegistryState) (e : String × Nat × Option String) :
    RegistryState :=
  { s with libs := (jsh_register_library s.libs e.1 e.2.1 e.2.2).2 }

/-- A sequence of registrations applied to the fresh registry. -/
def registerAll (es : List (String × Nat × Option String)) : RegistryState :=
  es.foldl registerLib initialRegistry

/-- Modelled from the spec: teardownAll is not under src/ (only the
registry declarations are in src/src/jSH.h).  Per the spec it iterates
every LibraryRecord once, invokes the shutdown hook when present
(ignoring absence), and is guarded to be a no-op on repeat calls.  It
returns the list of shutdown hooks invoked, in iteration order, next to
the new state. -/
def teardownAll (s : RegistryState) : List String × RegistryState :=
  if s.tornDown then ([], s)
  else (s.libs.filterMap (fun r => r.shutdown), { s with tornDown := true })

/-! ## Script Execution Driver (src/src/jSH.h lines 207, 209) -/

/-- The four outcomes a script run distinguishes. -/
inductive RunStatus where
  | success
  | compileError
  | runtimeError
  | fileNotFound
  deriving DecidableEq, Repr

/-- Outcome of handing source text to the engine collaborator. -/
inductive EngineOutcome where
  | ok
  | compileFail
  | runtimeFail
  deriving DecidableEq, Repr

/-- Modelled from the spec: the body of jsh_file_exists is not under src/
(src/src/jSH.h line 209 only declares it).  The filesystem collaborator
is a partial map from paths to contents; the file exists when the map is
defined. -/
def jsh_file_exists (fs : String → Option String) (fname : String) : Bool :=
  (fs fname).isSome

/-- Modelled from the spec: the body of jsh_do_file is not under src/
(src/src/jSH.h line 207 only declares it).  Per the spec, runFile loads
the file's content from the filesystem collaborator — a nonexistent path
yields fileNotFound before the engine is consulted — then compiles and
executes it in the engine collaborator and maps the engine outcome to
the status. -/
def jsh_do_file (fs : String → Option String)
    (engine : String → EngineOutcome) (fname : String) : RunStatus :=
  match fs fname with
  | none => RunStatus.fileNotFound
  | some src =>
      match engine src with
      | .ok => RunStatus.success
      | .compileFail => RunStatus.compileError
      | .runtimeFail => RunStatus.runtimeError

/-! ## Concrete continuations used by the witnesses -/

/-- A routine body that records that it ran by setting the sentinel,
ignoring the checked number. -/
def kSentinel : Rat → RoutineState → RoutineState :=
  fun _ s => { s with sentinel := true }

/-- A routine body that does nothing. -/
def kSkip : Rat → RoutineState → RoutineState :=
  fun _ s => s

/-- A routine body after a type guard that records that it ran. -/
def kUse : Nat → RoutineState → RoutineState :=
  fun _ s => { s with sentinel := true }

/-- A second routine body after a type guard, to observe that the failure
branch never runs the continuation. -/
def kDrop : Nat → RoutineState → RoutineState :=
  fun _ s => s

/-- A filesystem collaborator on which no path exists. -/
def emptyFS : String → Option String := fun _ => none

/-- An engine collaborator that accepts and runs any source. -/
def okEngine : String → EngineOutcome := fun _ => EngineOutcome.ok

/-! ## Theorems -/

/-- The int32 cast always lands in the int32 interval. -/
theorem toInt32_bounds (q : Rat) : -(2 ^ 31) ≤ toInt32 q ∧ toInt32 q < 2 ^ 31 := by
  have h1 : 0 ≤ (ratTrunc q + 2 ^ 31) % 2 ^ 32 :=
    Int.emod_nonneg _ (by norm_num)
  have h2 : (ratTrunc q + 2 ^ 31) % 2 ^ 32 < 2 ^ 32 :=
    Int.emod_lt_of_pos _ (by norm_num)
  unfold toInt32
  omega

/-- Truncation of an integer-valued rational is that integer. -/
theorem ratTrunc_intCast (z : Int) : ratTrunc ((z : Rat)) = z := by
  unfold ratTrunc
  simp

/-- On rationals exactly representable as an int32, the cast is the
identity. -/
theorem toInt32_eq_self (q : Rat) (hden : q.den = 1)
    (h1 : -(2 ^ 31) ≤ q.num) (h2 : q.num < 2 ^ 31) : (toInt32 q : Rat) = q := by
  have ht : ratTrunc q = q.num := by
    unfold ratTrunc
    rw [hden]
    simp
  have hv : toInt32 q = q.num := by
    unfold toInt32
    rw [ht, Int.emod_eq_of_lt (by omega) (by omega)]
    omega
  rw [hv]
  exact_mod_cast (Rat.den_eq_one_iff q).mp hden

/-- On rationals not exactly representable as an int32 (fractional or out
of range), the cast changes the value. -/
theorem toInt32_ne_self (q : Rat)
    (hq : q.den ≠ 1 ∨ q.num < -(2 ^ 31) ∨ 2 ^ 31 ≤ q.num) :
    (toInt32 q : Rat) ≠ q := by
  intro heq
  have hden : q.den = 1 := by
    rw [← heq]
    exact Rat.den_intCast _
  have hnum : q.num = toInt32 q := by
    have h := congrArg Rat.num heq
    simpa using h.symm
  have hb := toInt32_bounds q
  rcases hq with h | h | h
  · exact h hden
  · omega
  · omega

/-- C2 counterexample: at the argument -2147483649 (negative, but not
representable as an int32) the guard raises NonNegativeExpected with the
wrapped value 2147483647 embedded in the message — not
NonNegativeExpected(-2147483649) as the claim states. -/
theorem JS_CHECKPOS_reported_value_counterexample :
    JS_CHECKPOS ((-2147483649 : Int) : Rat) ⟨none, false⟩ kSentinel
      = js_error (.nonNegativeExpected 2147483647) ⟨none, false⟩ ∧
    (JS_CHECKPOS ((-2147483649 : Int) : Rat) ⟨none, false⟩ kSentinel).err
      ≠ some (errMsg (.nonNegativeExpected (-2147483649))) ∧
    ((2147483647 : Rat) ≠ ((-2147483649 : Int) : Rat)) := by
  have hv : ((-2147483649 : Int) : Rat) < 0 := by norm_num
  have ht : toInt32 ((-2147483649 : Int) : Rat) = 2147483647 := by
    unfold toInt32
    rw [ratTrunc_intCast]
    decide
  refine ⟨?_, ?_, by norm_num⟩
  · unfold JS_CHECKPOS
    rw [if_pos hv, ht]
  · unfold JS_CHECKPOS
    rw [if_pos hv, ht]
    simp only [js_error, Option.some.injEq, ne_eq]
    intro hcontra
    exact absurd hcontra (by decide)

/-- C2 amended: for every numeric value v the guard raises
NonNegativeExpected of v cast to int32 — equal to v itself whenever v is
exactly representable as an int32 — and returns immediately (the rest of
the routine never runs, its sentinel stays unset) if and only if v < 0;
for every v >= 0 (including 0) it raises nothing and execution continues
with v unchanged. -/
theorem JS_CHECKPOS_spec (num : Rat) (s : RoutineState)
    (k k' : Rat → RoutineState → RoutineState) :
    (num < 0 →
       JS_CHECKPOS num s k = js_error (.nonNegativeExpected (toInt32 num)) s ∧
       JS_CHECKPOS num s k = JS_CHECKPOS num s k' ∧
       (JS_CHECKPOS num s k).sentinel = s.sentinel) ∧
    (0 ≤ num → JS_CHECKPOS num s k = k num s) ∧
    (num.den = 1 → -(2 ^ 31) ≤ num.num → num.num < 2 ^ 31 →
       (toInt32 num : Rat) = num) := by
  refine ⟨?_, ?_, toInt32_eq_self num⟩
  · intro h
    unfold JS_CHECKPOS
    simp only [if_pos h]
    exact ⟨trivial, trivial, rfl⟩
  · intro h
    unfold JS_CHECKPOS
    rw [if_neg (not_lt.mpr h)]

/-- C2 witness: at -5 (the spec's scenario, exactly representable) the
guard raises with -5 itself embedded, the routine's sentinel stays
false whichever body follows, and at 0 the guard lets the body run. -/
theorem JS_CHECKPOS_spec_witness :
    JS_CHECKPOS (-5 : Rat) ⟨none, false⟩ kSentinel
      = js_error (.nonNegativeExpected (toInt32 (-5 : Rat))) ⟨none, false⟩ ∧
    JS_CHECKPOS (-5 : Rat) ⟨none, false⟩ kSentinel
      = JS_CHECKPOS (-5 : Rat) ⟨none, false⟩ kSkip ∧
    (JS_CHECKPOS (-5 : Rat) ⟨none, false⟩ kSentinel).sentinel = false ∧
    (toInt32 (-5 : Rat) : Rat) = (-5 : Rat) ∧
    JS_CHECKPOS (0 : Rat) ⟨none, false⟩ kSentinel = kSentinel 0 ⟨none, false⟩ := by
  have h := JS_CHECKPOS_spec (-5 : Rat) ⟨none, false⟩ kSentinel kSkip
  have h0 := JS_CHECKPOS_spec (0 : Rat) ⟨none, false⟩ kSentinel kSkip
  have hneg : (-5 : Rat) < 0 := by norm_num
  exact ⟨(h.1 hneg).1, (h.1 hneg).2.1, (h.1 hneg).2.2,
    h.2.2 (by decide) (by decide) (by decide), h0.2.1 (by norm_num)⟩

/-- C10: when the guard raises, the message embeds the argument cast to
int32 (truncated toward zero and wrapped); the test deciding whether to
raise is on the uncast argument; and for every argument not exactly
representable as an int32 the embedded value differs from the argument. -/
theorem JS_CHECKPOS_int32_cast (q : Rat) (s : RoutineState)
    (k : Rat → RoutineState → RoutineState) :
    (q < 0 →
       (JS_CHECKPOS q s k).err
         = some (errMsg (.nonNegativeExpected (toInt32 q)))) ∧
    (0 ≤ q → JS_CHECKPOS q s k = k q s) ∧
    ((q.den ≠ 1 ∨ q.num < -(2 ^ 31) ∨ 2 ^ 31 ≤ q.num) →
       (toInt32 q : Rat) ≠ q) := by
  refine ⟨?_, ?_, toInt32_ne_self q⟩
  · intro h
    unfold JS_CHECKPOS
    rw [if_pos h]
    rfl
  · intro h
    unfold JS_CHECKPOS
    rw [if_neg (not_lt.mpr h)]

/-- C10 witness: at -2147483650 (negative, below int32 range) the guard
raises with the cast value embedded, which differs from the argument; at
7 the guard lets the body run. -/
theorem JS_CHECKPOS_int32_cast_witness :
    (JS_CHECKPOS ((-2147483650 : Int) : Rat) ⟨none, false⟩ kSkip).err
      = some (errMsg (.nonNegativeExpected
          (toInt32 ((-2147483650 : Int) : Rat)))) ∧
    (toInt32 ((-2147483650 : Int) : Rat) : Rat)
      ≠ ((-2147483650 : Int) : Rat) ∧
    JS_CHECKPOS (7 : Rat) ⟨none, false⟩ kSentinel
      = kSentinel 7 ⟨none, false⟩ := by
  have h := JS_CHECKPOS_int32_cast ((-2147483650 : Int) : Rat) ⟨none, false⟩ kSkip
  have h7 := JS_CHECKPOS_int32_cast (7 : Rat) ⟨none, false⟩ kSentinel
  exact ⟨h.1 (by norm_num), h.2.2 (Or.inr (Or.inl (by simp))),
    h7.2.1 (by norm_num)⟩

/-- C3: NPROTDEF defines the method property n (naming t's prototype in
the engine-visible function name) with exactly the attribute word
JS_READONLY | JS_DONTENUM | JS_DONTCONF, so the installed method is
read-only, non-enumerable and non-configurable: script code cannot
overwrite, enumerate or delete it. -/
theorem NPROTDEF_locked_method (t n : String) (p : Nat) :
    (NPROTDEF t n p).name = n ∧
    (NPROTDEF t n p).fnName = t ++ ".prototype." ++ n ∧
    (NPROTDEF t n p).arity = p ∧
    (NPROTDEF t n p).atts = (JS_READONLY ||| JS_DONTENUM ||| JS_DONTCONF) ∧
    isReadonly (NPROTDEF t n p).atts = true ∧
    isDontEnum (NPROTDEF t n p).atts = true ∧
    isDontConf (NPROTDEF t n p).atts = true ∧
    canOverwrite (NPROTDEF t n p).atts = false ∧
    canDelete (NPROTDEF t n p).atts = false ∧
    isEnumerated (NPROTDEF t n p).atts = false := by
  refine ⟨rfl, rfl, rfl, rfl, ?_, ?_, ?_, ?_, ?_, ?_⟩ <;>
    simp [NPROTDEF, isReadonly, isDontEnum, isDontConf, canOverwrite,
      canDelete, isEnumerated, JS_READONLY, JS_DONTENUM, JS_DONTCONF,
      Nat.testBit, Nat.shiftRight]

/-- C5: raising an error of a given kind stores a message that depends
only on the kind and its parameters (never on the prior engine state),
and each kind's message comes from its one canonical template, exactly
the format strings of src/src/jSH.h — so two failures of the same kind
with the same parameters yield character-identical messages. -/
theorem errMsg_canonical (k : ErrKind) (s s' : RoutineState) :
    (js_error k s).err = (js_error k s').err ∧
    (js_error k s).err = some (errMsg k) ∧
    errMsg .outOfMemory = "Out of memory" ∧
    errMsg .arrayExpected = "Array expected" ∧
    (∀ idx : Int, errMsg (.indexOutOfBounds idx)
        = "Index out of bound (" ++ toString idx ++ ")") ∧
    (∀ ty : String, errMsg (.typeMismatch ty) = ty ++ " expected") ∧
    (∀ v : Int, errMsg (.nonNegativeExpected v)
        = "Non negative number expected: " ++ toString v) ∧
    errMsg .unsupportedOnPlatform = "Not supported on Linux" :=
  ⟨rfl, rfl, rfl, rfl, fun _ => rfl, fun _ => rfl, fun _ => rfl, rfl⟩

/-- C8 counterexample: CTORDEF takes no finalizer routine and associates
none — at a concrete binding the finalizer slot is empty (and the second
routine passed to js_newcconstructor is the constructor routine itself,
not a finalizer), refuting the claim that the given finalizer routine is
associated with instances of the type. -/
theorem CTORDEF_finalizer_counterexample :
    (CTORDEF "new_Socket" "Socket" 2).finalizer = none ∧
    (CTORDEF "new_Socket" "Socket" 2).finalizer.isSome = false ∧
    (CTORDEF "new_Socket" "Socket" 2).constructFn = some "new_Socket" ∧
    (CTORDEF "new_Socket" "Socket" 2).callFn = "new_Socket" :=
  ⟨rfl, rfl, rfl, rfl⟩

/-- C8 amended: CTORDEF binds the constructor routine in the global
namespace under the name t and marks that global binding non-enumerable
(attribute word exactly JS_DONTENUM); it takes no finalizer argument and
associates no finalizer — the routine f serves as both the plain call
function and the construct function. -/
theorem CTORDEF_spec (f t : String) (p : Nat) :
    (CTORDEF f t p).name = t ∧
    (CTORDEF f t p).atts = JS_DONTENUM ∧
    isDontEnum (CTORDEF f t p).atts = true ∧
    isReadonly (CTORDEF f t p).atts = false ∧
    isDontConf (CTORDEF f t p).atts = false ∧
    (CTORDEF f t p).callFn = f ∧
    (CTORDEF f t p).constructFn = some f ∧
    (CTORDEF f t p).finalizer = none ∧
    (CTORDEF f t p).arity = p := by
  refine ⟨rfl, rfl, ?_, ?_, ?_, rfl, rfl, rfl, rfl⟩ <;>
    simp [CTORDEF, isReadonly, isDontEnum, isDontConf, JS_DONTENUM,
      Nat.testBit, Nat.shiftRight]

/-- C9: NFUNCDEF binds via a plain global set, attribute word 0, so the
global function is writable, enumerable and configurable — script code
can overwrite or delete it — unlike NPROTDEF's methods (read-only,
non-enumerable, non-configurable) and CTORDEF's constructors
(non-enumerable). -/
theorem NFUNCDEF_plain_global (n : String) (p : Nat) (t m : String)
    (q : Nat) (f ty : String) (r : Nat) :
    (NFUNCDEF n p).name = n ∧
    (NFUNCDEF n p).callFn = "f_" ++ n ∧
    (NFUNCDEF n p).atts = 0 ∧
    canOverwrite (NFUNCDEF n p).atts = true ∧
    canDelete (NFUNCDEF n p).atts = true ∧
    isEnumerated (NFUNCDEF n p).atts = true ∧
    (canOverwrite (NPROTDEF t m q).atts = false ∧
     canDelete (NPROTDEF t m q).atts = false ∧
     isEnumerated (NPROTDEF t m q).atts = false) ∧
    isEnumerated (CTORDEF f ty r).atts = false := by
  refine ⟨rfl, rfl, rfl, ?_, ?_, ?_, ⟨?_, ?_, ?_⟩, ?_⟩ <;>
    simp [NFUNCDEF, NPROTDEF, CTORDEF, isReadonly, isDontEnum, isDontConf,
      canOverwrite, canDelete, isEnumerated, JS_READONLY, JS_DONTENUM,
      JS_DONTCONF, Nat.testBit, Nat.shiftRight]

/-- C4: the handle-type guard JS_CHECKTYPE hands the underlying native
handle to the rest of the routine when the value carries the expected
tag; otherwise it raises the canonical "expected" message naming the
expected type and returns immediately — the continuation (the code after
the guard) never executes, so the result does not depend on it. -/
theorem JS_CHECKTYPE_spec (v : JSValue) (ty : String) (s : RoutineState)
    (k k' : Nat → RoutineState → RoutineState) :
    (∀ h : Nat, v = .userdata ty h → JS_CHECKTYPE v ty s k = k h s) ∧
    (js_isuserdata v ty = false →
       JS_CHECKTYPE v ty s k = js_error (.typeMismatch ty) s ∧
       JS_CHECKTYPE v ty s k = JS_CHECKTYPE v ty s k' ∧
       (JS_CHECKTYPE v ty s k).err = some (errMsg (.typeMismatch ty)) ∧
       errMsg (.typeMismatch ty) = ty ++ " expected") := by
  constructor
  · rintro h rfl
    simp [JS_CHECKTYPE, js_isuserdata, js_touserdata]
  · intro hfail
    refine ⟨?_, ?_, ?_, rfl⟩ <;> simp [JS_CHECKTYPE, hfail, js_error]

/-- C4 witness: on a userdata value tagged "File" with handle 42 the
guard runs the routine body on handle 42; on a number the guard raises
the "File expected" error. -/
theorem JS_CHECKTYPE_witness :
    JS_CHECKTYPE (.userdata "File" 42) "File" ⟨none, false⟩ kUse
      = kUse 42 ⟨none, false⟩ ∧
    JS_CHECKTYPE (.number 1) "File" ⟨none, false⟩ kUse
      = js_error (.typeMismatch "File") ⟨none, false⟩ :=
  ⟨(JS_CHECKTYPE_spec (.userdata "File" 42) "File" ⟨none, false⟩ kUse kDrop).1
     42 rfl,
   ((JS_CHECKTYPE_spec (.number 1) "File" ⟨none, false⟩ kUse kDrop).2 rfl).1⟩

/-- C1: on a registry whose record names are unique (the Registry
invariant), registering an already-present name returns false and leaves
the registry unchanged — still holding exactly one record of that name —
and registering a fresh name appends a new record and returns true. -/
theorem jsh_register_library_spec (regs : List library_t) (n : String)
    (h : Nat) (sd : Option String)
    (hnodup : (regs.map library_t.name).Nodup) :
    (jsh_check_library regs n = true →
       jsh_register_library regs n h sd = (false, regs) ∧
       ((jsh_register_library regs n h sd).2.filter
           (fun r => r.name == n)).length = 1) ∧
    (jsh_check_library regs n = false →
       jsh_register_library regs n h sd = (true, regs ++ [⟨n, h, sd⟩])) := by
  constructor
  · intro hpres
    have hcond : regs.any (fun r => r.name == n) = true := hpres
    have hreg : jsh_register_library regs n h sd = (false, regs) := by
      unfold jsh_register_library
      rw [hcond]
      rfl
    refine ⟨hreg, ?_⟩
    have h2 : (jsh_register_library regs n h sd).2 = regs := by rw [hreg]
    rw [h2]
    have hmem : n ∈ regs.map library_t.name := by
      rw [List.any_eq_true] at hcond
      obtain ⟨r, hr, hrn⟩ := hcond
      exact List.mem_map.mpr ⟨r, hr, by simpa using hrn⟩
    have hle : (regs.map library_t.name).count n ≤ 1 :=
      List.nodup_iff_count_le_one.mp hnodup n
    have hge : 0 < (regs.map library_t.name).count n :=
      List.count_pos_iff.mpr hmem
    have hcnt : (regs.filter (fun r => r.name == n)).length
        = (regs.map library_t.name).count n := by
      rw [List.count, List.countP_map, List.countP_eq_length_filter]
      rfl
    omega
  · intro habs
    have hcond : regs.any (fun r => r.name == n) = false := habs
    unfold jsh_register_library
    rw [hcond]
    rfl

/-- C1 witness: registering "gfx" a second time fails, keeps the single
"gfx" record, and registering the fresh name "tcp" appends and
succeeds. -/
theorem jsh_register_library_witness :
    jsh_register_library [⟨"gfx", 7, some "gfx_shutdown"⟩] "gfx" 9 none
      = (false, [⟨"gfx", 7, some "gfx_shutdown"⟩]) ∧
    ((jsh_register_library [⟨"gfx", 7, some "gfx_shutdown"⟩] "gfx" 9
        none).2.filter (fun r => r.name == "gfx")).length = 1 ∧
    jsh_register_library [⟨"gfx", 7, some "gfx_shutdown"⟩] "tcp" 9 none
      = (true, [⟨"gfx", 7, some "gfx_shutdown"⟩, ⟨"tcp", 9, none⟩]) := by
  have h1 := jsh_register_library_spec [⟨"gfx", 7, some "gfx_shutdown"⟩]
    "gfx" 9 none (by decide)
  have h2 := jsh_register_library_spec [⟨"gfx", 7, some "gfx_shutdown"⟩]
    "tcp" 9 none (by decide)
  exact ⟨(h1.1 (by decide)).1, (h1.1 (by decide)).2, h2.2 (by decide)⟩

/-- Registration steps never set the teardown flag. -/
theorem foldl_registerLib_tornDown (es : List (String × Nat × Option String))
    (s : RegistryState) : (es.foldl registerLib s).tornDown = s.tornDown := by
  induction es generalizing s with
  | nil => rfl
  | cons e es ih =>
      rw [List.foldl_cons, ih]
      rfl

/-- C6: after any sequence of registrations, the first teardownAll
invokes exactly the registered shutdown hooks — one per record that has
one, in registration order — and a second consecutive teardownAll
invokes none and changes nothing, so each hook runs exactly once in
total. -/
theorem teardownAll_exactly_once (es : List (String × Nat × Option String)) :
    (teardownAll (registerAll es)).1
      = (registerAll es).libs.filterMap library_t.shutdown ∧
    (teardownAll (teardownAll (registerAll es)).2).1 = [] ∧
    (teardownAll (teardownAll (registerAll es)).2).2
      = (teardownAll (registerAll es)).2 := by
  have h : (registerAll es).tornDown = false :=
    foldl_registerLib_tornDown es initialRegistry
  refine ⟨?_, ?_, ?_⟩ <;> simp [teardownAll, h]

/-- C7: a path the filesystem does not know yields fileNotFound (never
compileError), and when the file exists the engine outcome maps to
success, compileError or runtimeError respectively — the four outcomes
are distinguished. -/
theorem jsh_do_file_spec (fs : String → Option String)
    (engine : String → EngineOutcome) (p : String) :
    (fs p = none →
       jsh_do_file fs engine p = RunStatus.fileNotFound ∧
       jsh_do_file fs engine p ≠ RunStatus.compileError) ∧
    (jsh_file_exists fs p = false →
       jsh_do_file fs engine p = RunStatus.fileNotFound) ∧
    (∀ src, fs p = some src →
       (engine src = .ok → jsh_do_file fs engine p = RunStatus.success) ∧
       (engine src = .compileFail →
          jsh_do_file fs engine p = RunStatus.compileError) ∧
       (engine src = .runtimeFail →
          jsh_do_file fs engine p = RunStatus.runtimeError)) := by
  refine ⟨?_, ?_, ?_⟩
  · intro h
    refine ⟨?_, ?_⟩ <;> simp [jsh_do_file, h]
  · intro h
    unfold jsh_file_exists at h
    cases hfs : fs p with
    | none => simp [jsh_do_file, hfs]
    | some v =>
        rw [hfs] at h
        simp at h
  · intro src hsrc
    refine ⟨fun he => ?_, fun he => ?_, fun he => ?_⟩ <;>
      simp [jsh_do_file, hsrc, he]

/-- C7 witness: running "missing.js" against an empty filesystem returns
fileNotFound, not compileError. -/
theorem jsh_do_file_witness :
    jsh_do_file emptyFS okEngine "missing.js" = RunStatus.fileNotFound ∧
    jsh_do_file emptyFS okEngine "missing.js" ≠ RunStatus.compileError :=
  (jsh_do_file_spec emptyFS okEngine "missing.js").1 rfl

end JSH
